import Mathlib

set_option maxRecDepth 100000

/-!
Shallow embedding of the WW2 memory-game block (src/src/block.tsx).

The React component keeps its whole game session in component state:
the card list, the ordered selection set (`flippedCards`), the
matched-pair count, the move count, the started/won flags, the start
timestamp and the elapsed time.  We embed that state as `GameState`.

Event handling is embedded as explicit transition functions:
* `handleCardClick` — the click handler (lines 109-163), returning the
  new state together with the resolution timer it schedules, if any;
* `fireMatch` / `fireMismatch` — the two `setTimeout` callbacks
  (lines 138-148 and 151-160), applied to the state current when the
  timer fires (the callbacks use functional `setState` updaters);
* `restartState` — `initializeGame` (lines 58-90), which does not reset
  `startTime` and does not cancel pending timers;
* `winBody` — the win-check `useEffect` body (lines 166-182), which runs
  again whenever one of its dependencies (matchedPairs, totalPairs,
  gameStarted, moves, timeElapsed, difficulty) changed.

`Config` adds the runtime context the component lives in: the list of
scheduled-but-unfired timer callbacks (timers are never cancelled, so
callbacks survive a restart), the dependency tuple the win effect last
ran with, and the list of completion records posted so far.  `gameStep`
processes one external event (click, timer firing, elapsed-time sampler
tick, restart) and then runs the win effect exactly as React does after
the resulting render.
-/

namespace MemGame

structure Item where
  symbol : String
  name : String
deriving DecidableEq, Repr

structure Card where
  id : Nat
  symbol : String
  name : String
  matched : Bool
  flipped : Bool
deriving DecidableEq, Repr

/-- The fixed catalog `WW2_ITEMS` (lines 16-29). -/
def WW2_ITEMS : List Item :=
  [⟨"✈️", "Fighter Plane"⟩,
   ⟨"🚁", "Helicopter"⟩,
   ⟨"🚢", "Battleship"⟩,
   ⟨"⚓", "Naval Anchor"⟩,
   ⟨"🪖", "Military Helmet"⟩,
   ⟨"🎖️", "Military Medal"⟩,
   ⟨"💣", "Bomb"⟩,
   ⟨"🔫", "Rifle"⟩,
   ⟨"🗺️", "Battle Map"⟩,
   ⟨"📻", "Radio"⟩,
   ⟨"🚂", "Military Train"⟩,
   ⟨"⭐", "Military Star"⟩]

/-- `getGridSize` (lines 45-52): the switch over the difficulty string. -/
def getGridSize (diff : String) : Nat :=
  if diff = "easy" then 4
  else if diff = "medium" then 4
  else if diff = "hard" then 6
  else 4

/-- `totalPairs = (gridSize * 4) / 2` (line 55). -/
def totalPairs (diff : String) : Nat :=
  (getGridSize diff * 4) / 2

/-- The pair-construction loop of `initializeGame` (lines 63-79): two
cards per item, with consecutive ids from an incrementing counter. -/
def buildCards : Nat → List Item → List Card
  | _, [] => []
  | cid, item :: rest =>
      { id := cid, symbol := item.symbol, name := item.name,
        matched := false, flipped := false } ::
      { id := cid + 1, symbol := item.symbol, name := item.name,
        matched := false, flipped := false } ::
      buildCards (cid + 2) rest

/-- The deck `initializeGame` builds before shuffling (lines 59-79):
two cards for each of the first `totalPairs` catalog items.  The
shuffle (line 82) produces an arbitrary permutation of this list, so
theorems quantify over permutations of `gameCards`. -/
def gameCards (diff : String) : List Card :=
  buildCards 0 (WW2_ITEMS.take (totalPairs diff))

structure GameState where
  cards : List Card
  flippedCards : List Nat
  matchedPairs : Nat
  moves : Nat
  gameStarted : Bool
  gameWon : Bool
  startTime : Nat
  timeElapsed : Nat
deriving DecidableEq, Repr

/-- The component state right after mount: `useState` initial values
(lines 35-42) followed by the mount-time `initializeGame` run
(lines 93-95), which installs `deck` as the card list. -/
def initState (deck : List Card) : GameState :=
  { cards := deck, flippedCards := [], matchedPairs := 0, moves := 0,
    gameStarted := false, gameWon := false, startTime := 0, timeElapsed := 0 }

/-- `initializeGame` as run on restart (lines 83-89): installs the new
deck and resets everything except `startTime`, which it never touches. -/
def restartState (s : GameState) (deck : List Card) : GameState :=
  { s with cards := deck, flippedCards := [], matchedPairs := 0, moves := 0,
           gameWon := false, gameStarted := false, timeElapsed := 0 }

/-- `cards.find(card => card.id === cardId)` (line 117 and 133-134). -/
def findCard (cards : List Card) (cardId : Nat) : Option Card :=
  cards.find? (fun c => c.id == cardId)

/-- The truthiness of `cards.find(...)?.matched` (line 117): `undefined`
(no such card) is falsy. -/
def matchedAt (cards : List Card) (cardId : Nat) : Bool :=
  ((findCard cards cardId).map Card.matched).getD false

/-- A scheduled resolution callback: the closure captured by one of the
two `setTimeout` calls (lines 138 and 151), identified by the two
selected card ids it captured. -/
inductive Pending where
  | matchRes (firstId secondId : Nat)
  | mismatchRes (firstId secondId : Nat)
deriving DecidableEq, Repr

/-- The delay each `setTimeout` is scheduled with: 1000 ms for a match
(line 148), 1500 ms for a mismatch (line 160). -/
def delayOf : Pending → Nat
  | .matchRes _ _ => 1000
  | .mismatchRes _ _ => 1500

/-- The per-card updater of the flip `setCards` (lines 123-127). -/
def flipCard (cardId : Nat) (c : Card) : Card :=
  if c.id = cardId then { c with flipped := true } else c

/-- The per-card updater of the match callback (lines 140-144). -/
def resolveMatch (firstId secondId : Nat) (c : Card) : Card :=
  if c.id = firstId ∨ c.id = secondId then { c with matched := true, flipped := false } else c

/-- The per-card updater of the mismatch callback (lines 153-157). -/
def unflip (firstId secondId : Nat) (c : Card) : Card :=
  if c.id = firstId ∨ c.id = secondId then { c with flipped := false } else c

/-- Lines 132-136 and 149: destructure the completed selection, look
both cards up in the (pre-flip) card list, and schedule a match timer
when both exist and share a symbol, a mismatch timer otherwise. -/
def scheduleRes (cards : List Card) (sel : List Nat) : Option Pending :=
  match sel with
  | [firstId, secondId] =>
      match findCard cards firstId, findCard cards secondId with
      | some c1, some c2 =>
          if c1.symbol = c2.symbol then some (.matchRes firstId secondId)
          else some (.mismatchRes firstId secondId)
      | _, _ => some (.mismatchRes firstId secondId)
  | _ => none

/-- `handleCardClick` (lines 109-163).  Returns the state after the
click together with the resolution timer scheduled by it, if any.
Note the source sets `gameStarted`/`startTime` (lines 110-113) before
checking the three rejection conditions (lines 115-117). -/
def handleCardClick (s0 : GameState) (cardId : Nat) (now : Nat) :
    GameState × Option Pending :=
  let s := if s0.gameStarted then s0
           else { s0 with gameStarted := true, startTime := now }
  if s.flippedCards.length = 2 then (s, none)
  else if cardId ∈ s.flippedCards then (s, none)
  else if matchedAt s.cards cardId then (s, none)
  else
    let newFlipped := s.flippedCards ++ [cardId]
    let s1 : GameState :=
      { s with flippedCards := newFlipped,
               cards := s.cards.map (flipCard cardId) }
    if newFlipped.length = 2 then
      ({ s1 with moves := s1.moves + 1 }, scheduleRes s.cards newFlipped)
    else (s1, none)

/-- The match `setTimeout` callback (lines 138-148), applied to the
state current when the timer fires. -/
def fireMatch (firstId secondId : Nat) (s : GameState) : GameState :=
  { s with cards := s.cards.map (resolveMatch firstId secondId),
           matchedPairs := s.matchedPairs + 1,
           flippedCards := [] }

/-- The mismatch `setTimeout` callback (lines 151-160). -/
def fireMismatch (firstId secondId : Nat) (s : GameState) : GameState :=
  { s with cards := s.cards.map (unflip firstId secondId),
           flippedCards := [] }

def firePending : Pending → GameState → GameState
  | .matchRes f sc => fireMatch f sc
  | .mismatchRes f sc => fireMismatch f sc

/-- The score expression `Math.max(1000 - moves * 10, 100)` (line 174),
over JS numbers, hence `Int`. -/
def score (moves : Nat) : Int :=
  max (1000 - (moves : Int) * 10) 100

structure Completion where
  type : String
  blockId : String
  completed : Bool
  score : Int
  maxScore : Int
  timeSpent : Nat
  dMoves : Nat
  dTimeElapsed : Nat
  dDifficulty : String
deriving DecidableEq, Repr

/-- The `completionData` record (lines 170-178); the `data` payload is
flattened into the `d`-prefixed fields. -/
def mkCompletion (d : String) (s : GameState) : Completion :=
  { type := "BLOCK_COMPLETION", blockId := "ww2-memory-game", completed := true,
    score := score s.moves, maxScore := 1000, timeSpent := s.timeElapsed,
    dMoves := s.moves, dTimeElapsed := s.timeElapsed, dDifficulty := d }

/-- The dependency tuple of the win-check `useEffect` (line 182). -/
def deps (d : String) (s : GameState) : Nat × Nat × Bool × Nat × Nat × String :=
  (s.matchedPairs, totalPairs d, s.gameStarted, s.moves, s.timeElapsed, d)

/-- The body of the win-check `useEffect` (lines 166-181): when
`matchedPairs === totalPairs && gameStarted`, set `gameWon` and post
the completion record.  Note the condition does not consult `gameWon`. -/
def winBody (d : String) (s : GameState) : GameState × Option Completion :=
  if s.matchedPairs = totalPairs d ∧ s.gameStarted then
    ({ s with gameWon := true }, some (mkCompletion d s))
  else (s, none)

structure Config where
  state : GameState
  pending : List Pending
  lastDeps : Nat × Nat × Bool × Nat × Nat × String
  emitted : List Completion
deriving DecidableEq, Repr

/-- Run the win-check effect the way React does after a render: only
when its dependency tuple differs from the one it last ran with. -/
def runWinEffect (d : String) (c : Config) : Config :=
  if deps d c.state = c.lastDeps then c
  else
    { c with state := (winBody d c.state).1,
             lastDeps := deps d c.state,
             emitted := c.emitted ++ (winBody d c.state).2.toList }

/-- External events driving the component: a card click (with the
`Date.now()` value), the firing of the i-th pending timer callback, an
elapsed-time sampler tick (lines 98-106), and a click of the New Game
button (line 343), whose `initializeGame` run shuffles a fresh deck. -/
inductive Event where
  | click (cardId now : Nat)
  | fire (i : Nat)
  | tick (now : Nat)
  | restart (deck : List Card)
deriving DecidableEq, Repr

/-- Process one event and then run the win-check effect on the
resulting state.  Timers are never cancelled: `restart` leaves
`pending` untouched, exactly as the source schedules `setTimeout`
without ever keeping or clearing the handle. -/
def gameStep (d : String) (c : Config) : Event → Config
  | .click cardId now =>
      let r := handleCardClick c.state cardId now
      runWinEffect d { c with state := r.1, pending := c.pending ++ r.2.toList }
  | .fire i =>
      match c.pending[i]? with
      | some p =>
          runWinEffect d { c with state := firePending p c.state,
                                  pending := c.pending.eraseIdx i }
      | none => c
  | .tick now =>
      let s := c.state
      if s.gameStarted ∧ s.gameWon = false then
        runWinEffect d { c with state := { s with timeElapsed := now - s.startTime } }
      else c
  | .restart deck =>
      runWinEffect d { c with state := restartState c.state deck }

/-- The component as mounted: state installed by the mount-time
`initializeGame`, no timers pending, nothing emitted, and the win
effect already run once on the initial render (its condition is false
there since `gameStarted` is false). -/
def initConfig (d : String) (deck : List Card) : Config :=
  { state := initState deck, pending := [], lastDeps := deps d (initState deck),
    emitted := [] }

def runGame (d : String) (evs : List Event) (c : Config) : Config :=
  evs.foldl (gameStep d) c

/-- An event is valid for difficulty `d` when any deck it installs is a
permutation of the freshly built pair deck (the shuffle on line 82 only
permutes). -/
def ValidEvent (d : String) : Event → Prop
  | .restart deck => (gameCards d).Perm deck
  | _ => True

/-- A configuration the mounted component can actually be in: reached
from some shuffled initial deck by a finite sequence of valid events. -/
def Reachable (d : String) (c : Config) : Prop :=
  ∃ deck evs, (gameCards d).Perm deck ∧ (∀ e ∈ evs, ValidEvent d e) ∧
    c = runGame d evs (initConfig d deck)

/-- The selection-set invariant of the spec: at most two entries, no
duplicates, and no entry is the id of a matched card. -/
def SelInv (s : GameState) : Prop :=
  s.flippedCards.length ≤ 2 ∧ s.flippedCards.Nodup ∧
    ∀ cid ∈ s.flippedCards, ∀ c ∈ s.cards, c.id = cid → c.matched = false

/-- Card ids are pairwise distinct. -/
def IdInv (s : GameState) : Prop :=
  (s.cards.map Card.id).Nodup

def Inv (c : Config) : Prop := IdInv c.state ∧ SelInv c.state

/-- The two card ids a scheduled resolution callback captured. -/
def pendingIds : Pending → List Nat
  | .matchRes f sc => [f, sc]
  | .mismatchRes f sc => [f, sc]

/-- The deck guarantee of the spec, for difficulty `d` and the shuffled
deck `l`: pair counts per tier, even size, every symbol on exactly two
cards, distinct ids, all flags initialized false, and `l` a permutation
of two cards per each of the first `totalPairs` catalog items. -/
def DeckOk (d : String) (l : List Card) : Prop :=
  totalPairs d = (if d = "hard" then 12 else 8) ∧
  l.length = 2 * totalPairs d ∧
  (∀ c ∈ l, l.countP (fun x => x.symbol == c.symbol) = 2) ∧
  (l.map Card.id).Nodup ∧
  (∀ c ∈ l, c.matched = false ∧ c.flipped = false) ∧
  l.Perm (buildCards 0 (WW2_ITEMS.take (totalPairs d)))

/-- The field contract of an emitted completion record. -/
def GoodRec (d : String) (r : Completion) : Prop :=
  r.type = "BLOCK_COMPLETION" ∧ r.blockId = "ww2-memory-game" ∧
  r.completed = true ∧ r.maxScore = 1000 ∧
  r.score = score r.dMoves ∧ 100 ≤ r.score ∧ r.score ≤ 1000 ∧
  r.dDifficulty = d

/-- Eight sessions that each flip the matching pair 0/1 and restart
before the 1000 ms match timer fires, leaving eight stale callbacks
pending; then one click in the ninth session starts it, and the eight
stale callbacks fire into it. -/
def c5Events : List Event :=
  (List.replicate 8 [Event.click 0 1, Event.click 1 1,
    Event.restart (gameCards "medium")]).flatten
  ++ [Event.click 2 2] ++ List.replicate 8 (Event.fire 0)

/-- The same run continued by two more clicks on unmatched cards after
the completion record has been emitted. -/
def c1Events : List Event := c5Events ++ [Event.click 3 2, Event.click 4 2]

/-- One session that flips the matching pair 0/1, then restarts while
the 1000 ms match timer is still pending. -/
def c4Pre : Config :=
  runGame "medium" [Event.click 0 3, Event.click 1 3,
    Event.restart (gameCards "medium")] (initConfig "medium" (gameCards "medium"))

/-- The stale match callback then fires into the fresh session. -/
def c4Post : Config := gameStep "medium" c4Pre (Event.fire 0)

/-- A reachable state of a fresh session into which a stale match
callback has fired: cards 0 and 1 are matched while `gameStarted` is
still false. -/
def c3State : GameState :=
  (runGame "medium" [Event.click 0 4, Event.click 1 4,
    Event.restart (gameCards "medium"), Event.fire 0]
    (initConfig "medium" (gameCards "medium"))).state

/-- A started mid-game state whose selection set is full. -/
def c3WitnessState : GameState :=
  { initState (gameCards "medium") with flippedCards := [0, 1], gameStarted := true }

/-- A session with a stale match timer for cards 0/1 pending, in which
the new session completes the two-card selection [0, 2] (different
symbols), so a mismatch timer is also pending. -/
def c7Mid : Config :=
  runGame "medium" [Event.click 0 5, Event.click 1 5,
    Event.restart (gameCards "medium"), Event.click 0 7, Event.click 2 7]
    (initConfig "medium" (gameCards "medium"))

/-- Both timers fire in scheduling order: the stale match callback
first, then the mismatch resolution of the selection [0, 2]. -/
def c7Cfg : Config :=
  gameStep "medium" (gameStep "medium" c7Mid (Event.fire 0)) (Event.fire 0)

/-- A full clean game on medium: the eight pairs are each selected in
two clicks and each match timer fires before the next selection. -/
def fullGameEvents : List Event :=
  ((List.range 8).map (fun k =>
    [Event.click (2 * k) 1, Event.click (2 * k + 1) 1, Event.fire 0])).flatten

/-- First click of a session on card 0 (deck unshuffled). -/
def c6StA : GameState := (handleCardClick (initState (gameCards "medium")) 0 5).1

/-- Second click on card 1, completing the matching selection [0, 1]. -/
def c6StB : GameState := (handleCardClick c6StA 1 6).1

/-- First click of a session on card 0 (deck unshuffled). -/
def c7StA : GameState := (handleCardClick (initState (gameCards "medium")) 0 5).1

/-- Second click on card 2, completing the mismatching selection [0, 2]. -/
def c7StB : GameState := (handleCardClick c7StA 2 6).1

theorem totalPairs_cases (d : String) : totalPairs d = 8 ∨ totalPairs d = 12 := by
  by_cases h1 : d = "easy" <;> by_cases h2 : d = "medium" <;> by_cases h3 : d = "hard" <;>
    simp [totalPairs, getGridSize, h1, h2, h3]

theorem gameCards_cases (d : String) :
    gameCards d = gameCards "easy" ∨ gameCards d = gameCards "hard" := by
  rcases totalPairs_cases d with h | h
  · left; unfold gameCards; rw [h]; rfl
  · right; unfold gameCards; rw [h]; rfl

theorem gameCards_ids_nodup (d : String) : ((gameCards d).map Card.id).Nodup := by
  rcases gameCards_cases d with h | h <;> rw [h] <;> decide

theorem flipCard_id (x : Nat) (c : Card) : (flipCard x c).id = c.id := by
  unfold flipCard; split <;> rfl

theorem flipCard_matched (x : Nat) (c : Card) : (flipCard x c).matched = c.matched := by
  unfold flipCard; split <;> rfl

theorem resolveMatch_id (a b : Nat) (c : Card) : (resolveMatch a b c).id = c.id := by
  unfold resolveMatch; split <;> rfl

theorem unflip_id (a b : Nat) (c : Card) : (unflip a b c).id = c.id := by
  unfold unflip; split <;> rfl

theorem unflip_matched (a b : Nat) (c : Card) : (unflip a b c).matched = c.matched := by
  unfold unflip; split <;> rfl

theorem map_id_of_pres {f : Card → Card} (hf : ∀ c, (f c).id = c.id) (l : List Card) :
    (l.map f).map Card.id = l.map Card.id := by
  rw [List.map_map]
  exact List.map_congr_left (fun c _ => hf c)

theorem matched_false_of_matchedAt_false {cards : List Card} {cid : Nat}
    (hn : (cards.map Card.id).Nodup) (hm : matchedAt cards cid = false) :
    ∀ c ∈ cards, c.id = cid → c.matched = false := by
  induction cards with
  | nil => intro c hc; cases hc
  | cons a rest ih =>
      intro c hc hcid
      rw [List.map_cons, List.nodup_cons] at hn
      rw [List.mem_cons] at hc
      by_cases ha : a.id = cid
      · have hfa : findCard (a :: rest) cid = some a := by
          unfold findCard
          rw [List.find?_cons_of_pos]
          simp [ha]
        have hma : a.matched = false := by
          unfold matchedAt at hm
          rw [hfa] at hm
          simpa using hm
        rcases hc with rfl | hc
        · exact hma
        · exact absurd ((hcid.trans ha.symm) ▸ List.mem_map_of_mem Card.id hc) hn.1
      · have hfa : findCard (a :: rest) cid = findCard rest cid := by
          unfold findCard
          rw [List.find?_cons_of_neg]
          simp [ha]
        rcases hc with rfl | hc
        · exact absurd hcid ha
        · refine ih hn.2 ?_ c hc hcid
          unfold matchedAt at hm ⊢
          rw [hfa] at hm
          exact hm

theorem click_rejected (s0 : GameState) (cid now : Nat)
    (h : s0.flippedCards.length = 2 ∨ cid ∈ s0.flippedCards ∨ matchedAt s0.cards cid = true) :
    handleCardClick s0 cid now =
      (if s0.gameStarted then s0 else { s0 with gameStarted := true, startTime := now },
       none) := by
  by_cases hg : s0.gameStarted = true <;> rcases h with h | h | h <;>
    simp [handleCardClick, hg, h]

theorem click_accepted (s0 : GameState) (cid now : Nat)
    (h1 : s0.flippedCards.length ≠ 2) (h2 : cid ∉ s0.flippedCards)
    (h3 : matchedAt s0.cards cid = false) :
    (handleCardClick s0 cid now).1.flippedCards = s0.flippedCards ++ [cid] ∧
    (handleCardClick s0 cid now).1.cards = s0.cards.map (flipCard cid) ∧
    (handleCardClick s0 cid now).1.matchedPairs = s0.matchedPairs ∧
    (handleCardClick s0 cid now).1.gameWon = s0.gameWon ∧
    (handleCardClick s0 cid now).1.moves =
      (if s0.flippedCards.length + 1 = 2 then s0.moves + 1 else s0.moves) ∧
    (handleCardClick s0 cid now).2 =
      (if s0.flippedCards.length + 1 = 2 then
        scheduleRes s0.cards (s0.flippedCards ++ [cid]) else none) := by
  by_cases hg : s0.gameStarted = true <;>
    by_cases hl : s0.flippedCards.length + 1 = 2 <;>
      simp [handleCardClick, hg, h1, h2, h3, hl]

theorem click_scheduled (st : GameState) (cid now : Nat) (st1 : GameState) (p : Pending)
    (h : handleCardClick st cid now = (st1, some p)) :
    st1.moves = st.moves + 1 ∧
    st1.flippedCards = st.flippedCards ++ [cid] ∧
    st1.flippedCards = pendingIds p ∧
    st1.cards = st.cards.map (flipCard cid) := by
  have h1 : st.flippedCards.length ≠ 2 ∧ cid ∉ st.flippedCards ∧
      matchedAt st.cards cid = false := by
    by_contra hcon
    have hrej : st.flippedCards.length = 2 ∨ cid ∈ st.flippedCards ∨
        matchedAt st.cards cid = true := by
      by_cases a1 : st.flippedCards.length = 2
      · exact Or.inl a1
      · by_cases a2 : cid ∈ st.flippedCards
        · exact Or.inr (Or.inl a2)
        · by_cases a3 : matchedAt st.cards cid = true
          · exact Or.inr (Or.inr a3)
          · exact absurd ⟨a1, a2, by simpa using a3⟩ hcon
    rw [click_rejected st cid now hrej] at h
    simp at h
  obtain ⟨ha1, ha2, ha3⟩ := h1
  obtain ⟨hf, hc, _, _, hm, hp⟩ := click_accepted st cid now ha1 ha2 ha3
  rw [h] at hf hc hm hp
  have hlen : st.flippedCards.length + 1 = 2 := by
    by_contra hl
    rw [if_neg hl] at hp
    simp at hp
  refine ⟨by rw [hm, if_pos hlen], hf, ?_, hc⟩
  rw [if_pos hlen] at hp
  unfold scheduleRes at hp
  have hsel2 : (st.flippedCards ++ [cid]).length = 2 := by simpa using hlen
  match hsel : st.flippedCards ++ [cid], hsel2 with
  | [a, b], _ =>
      rw [hsel] at hp hf
      rw [hf]
      simp only at hp
      rcases hfa : findCard st.cards a with _ | c1 <;>
        rcases hfb : findCard st.cards b with _ | c2 <;>
          rw [hfa, hfb] at hp <;> simp at hp
      · rw [hp]; rfl
      · rw [hp]; rfl
      · rw [hp]; rfl
      · by_cases hs : c1.symbol = c2.symbol
        · rw [if_pos hs] at hp
          injection hp with hp
          rw [hp]; rfl
        · rw [if_neg hs] at hp
          injection hp with hp
          rw [hp]; rfl

theorem fireMatch_spec (f sc : Nat) (st2 : GameState) :
    (∀ c ∈ (fireMatch f sc st2).cards, c.id = f ∨ c.id = sc →
      c.matched = true ∧ c.flipped = false) ∧
    (fireMatch f sc st2).matchedPairs = st2.matchedPairs + 1 ∧
    (fireMatch f sc st2).flippedCards = [] := by
  refine ⟨?_, rfl, rfl⟩
  intro c hc hid
  rcases List.mem_map.mp hc with ⟨c0, _, rfl⟩
  by_cases h : c0.id = f ∨ c0.id = sc
  · simp [resolveMatch, h]
  · rw [resolveMatch_id] at hid
    exact absurd hid h

theorem fireMismatch_spec (f sc : Nat) (st2 : GameState) :
    (∀ c ∈ (fireMismatch f sc st2).cards, c.id = f ∨ c.id = sc → c.flipped = false) ∧
    (fireMismatch f sc st2).cards.map Card.matched = st2.cards.map Card.matched ∧
    (fireMismatch f sc st2).flippedCards = [] ∧
    (fireMismatch f sc st2).matchedPairs = st2.matchedPairs := by
  refine ⟨?_, ?_, rfl, rfl⟩
  · intro c hc hid
    rcases List.mem_map.mp hc with ⟨c0, _, rfl⟩
    by_cases h : c0.id = f ∨ c0.id = sc
    · simp [unflip, h]
    · rw [unflip_id] at hid
      exact absurd hid h
  · show (st2.cards.map (unflip f sc)).map Card.matched = _
    rw [List.map_map]
    exact List.map_congr_left (fun c _ => unflip_matched f sc c)

theorem score_lb (m : Nat) : 100 ≤ score m := le_max_right _ _

theorem score_ub (m : Nat) : score m ≤ 1000 := by
  unfold score
  apply max_le <;> omega

theorem score_antitone : Antitone score := by
  intro a b hab
  unfold score
  exact max_le_max (by omega) le_rfl

theorem mkCompletion_good (d : String) (s : GameState) : GoodRec d (mkCompletion d s) :=
  ⟨rfl, rfl, rfl, rfl, rfl, score_lb _, score_ub _, rfl⟩

theorem runWinEffect_emitted (d : String) (c : Config) :
    ∀ r ∈ (runWinEffect d c).emitted, r ∈ c.emitted ∨ r = mkCompletion d c.state := by
  intro r hr
  unfold runWinEffect at hr
  split at hr
  · exact Or.inl hr
  · simp only at hr
    rcases List.mem_append.mp hr with h | h
    · exact Or.inl h
    · right
      unfold winBody at h
      split at h <;> simp at h
      exact h

theorem gameStep_emitted (d : String) (c : Config) (e : Event) :
    ∀ r ∈ (gameStep d c e).emitted, r ∈ c.emitted ∨ ∃ s, r = mkCompletion d s := by
  intro r hr
  cases e with
  | click cardId now =>
      rcases runWinEffect_emitted d _ r hr with h | h
      · exact Or.inl h
      · exact Or.inr ⟨_, h⟩
  | fire i =>
      simp only [gameStep] at hr
      rcases hp : c.pending[i]? with _ | p <;> rw [hp] at hr
      · exact Or.inl hr
      · rcases runWinEffect_emitted d _ r hr with h | h
        · exact Or.inl h
        · exact Or.inr ⟨_, h⟩
  | tick now =>
      simp only [gameStep] at hr
      split at hr
      · rcases runWinEffect_emitted d _ r hr with h | h
        · exact Or.inl h
        · exact Or.inr ⟨_, h⟩
      · exact Or.inl hr
  | restart deck =>
      rcases runWinEffect_emitted d _ r hr with h | h
      · exact Or.inl h
      · exact Or.inr ⟨_, h⟩

theorem emitted_run_good (d : String) :
    ∀ (evs : List Event) (c : Config), (∀ r ∈ c.emitted, GoodRec d r) →
      ∀ r ∈ (runGame d evs c).emitted, GoodRec d r := by
  intro evs
  induction evs with
  | nil => intro c hc; exact hc
  | cons e rest ih =>
      intro c hc r hr
      refine ih (gameStep d c e) ?_ r hr
      intro r2 hr2
      rcases gameStep_emitted d c e r2 hr2 with h | ⟨s, rfl⟩
      · exact hc r2 h
      · exact mkCompletion_good d s

theorem winBody_fields (d : String) (s : GameState) :
    (winBody d s).1.cards = s.cards ∧ (winBody d s).1.flippedCards = s.flippedCards := by
  unfold winBody
  split <;> exact ⟨rfl, rfl⟩

theorem inv_of_fields {s t : GameState} (hc : t.cards = s.cards)
    (hf : t.flippedCards = s.flippedCards) (h : IdInv s ∧ SelInv s) :
    IdInv t ∧ SelInv t := by
  unfold IdInv SelInv at h ⊢
  rw [hc, hf]
  exact h

theorem runWinEffect_inv (d : String) (c : Config)
    (h : IdInv c.state ∧ SelInv c.state) : Inv (runWinEffect d c) := by
  unfold runWinEffect Inv
  split
  · exact h
  · exact inv_of_fields (winBody_fields d c.state).1 (winBody_fields d c.state).2 h

theorem click_inv (s0 : GameState) (cid now : Nat) (h : IdInv s0 ∧ SelInv s0) :
    IdInv (handleCardClick s0 cid now).1 ∧ SelInv (handleCardClick s0 cid now).1 := by
  by_cases hrej : s0.flippedCards.length = 2 ∨ cid ∈ s0.flippedCards ∨
      matchedAt s0.cards cid = true
  · rw [click_rejected s0 cid now hrej]
    by_cases hg : s0.gameStarted = true <;>
      simp only [hg, if_true, if_false, Bool.false_eq_true, ite_true, ite_false] <;>
        exact inv_of_fields rfl rfl h
  · push_neg at hrej
    obtain ⟨h1, h2, h3⟩ := hrej
    have h3f : matchedAt s0.cards cid = false := by simpa using h3
    obtain ⟨hf, hc, _, _, _, _⟩ := click_accepted s0 cid now h1 h2 h3f
    have hid := h.1
    have hlen := h.2.1
    have hnd := h.2.2.1
    have hmat := h.2.2.2
    constructor
    · unfold IdInv
      rw [hc, map_id_of_pres (flipCard_id cid)]
      exact hid
    · refine ⟨?_, ?_, ?_⟩
      · rw [hf]
        simp only [List.length_append, List.length_singleton]
        omega
      · rw [hf, List.nodup_append]
        exact ⟨hnd, List.nodup_singleton cid, by simpa using h2⟩
      · intro x hx c hcmem hcid
        rw [hc] at hcmem
        rcases List.mem_map.mp hcmem with ⟨c0, hc0, rfl⟩
        rw [flipCard_matched]
        rw [flipCard_id] at hcid
        rw [hf] at hx
        rcases List.mem_append.mp hx with hx | hx
        · exact hmat x hx c0 hc0 hcid
        · have hxcid : x = cid := by simpa using hx
          exact matched_false_of_matchedAt_false hid h3f c0 hc0 (hxcid ▸ hcid)

theorem fire_inv (p : Pending) (s : GameState) (h : IdInv s) :
    IdInv (firePending p s) ∧ SelInv (firePending p s) := by
  have hsel : ∀ t : GameState, t.flippedCards = [] → SelInv t := by
    intro t ht
    refine ⟨by rw [ht]; simp, by rw [ht]; exact List.nodup_nil, ?_⟩
    intro x hx
    rw [ht] at hx
    cases hx
  cases p with
  | matchRes f sc =>
      refine ⟨?_, hsel _ rfl⟩
      unfold IdInv firePending fireMatch
      rw [map_id_of_pres (resolveMatch_id f sc)]
      exact h
  | mismatchRes f sc =>
      refine ⟨?_, hsel _ rfl⟩
      unfold IdInv firePending fireMismatch
      rw [map_id_of_pres (unflip_id f sc)]
      exact h

theorem gameStep_inv (d : String) (c : Config) (e : Event) (hv : ValidEvent d e)
    (h : Inv c) : Inv (gameStep d c e) := by
  cases e with
  | click cardId now =>
      exact runWinEffect_inv d _ (click_inv c.state cardId now h)
  | fire i =>
      simp only [gameStep]
      rcases hp : c.pending[i]? with _ | p
      · exact h
      · exact runWinEffect_inv d _ (fire_inv p c.state h.1)
  | tick now =>
      simp only [gameStep]
      split
      · exact runWinEffect_inv d _ (inv_of_fields rfl rfl h)
      · exact h
  | restart deck =>
      refine runWinEffect_inv d _ ⟨?_, ?_⟩
      · unfold IdInv restartState
        simp only
        exact ((hv.map Card.id).nodup_iff).mp (gameCards_ids_nodup d)
      · exact ⟨by simp [restartState], by simp [restartState], by intro x hx; simp [restartState] at hx⟩

theorem runGame_inv (d : String) :
    ∀ (evs : List Event) (c : Config), (∀ e ∈ evs, ValidEvent d e) → Inv c →
      Inv (runGame d evs c) := by
  intro evs
  induction evs with
  | nil => intro c _ h; exact h
  | cons e rest ih =>
      intro c hv h
      exact ih (gameStep d c e)
        (fun x hx => hv x (List.mem_cons_of_mem e hx))
        (gameStep_inv d c e (hv e (List.mem_cons_self e rest)) h)

theorem deckOk_of_perm (d : String) (l : List Card)
    (hperm : l.Perm (gameCards d))
    (h1 : totalPairs d = (if d = "hard" then 12 else 8))
    (h2 : (gameCards d).length = 2 * totalPairs d)
    (h3 : ∀ x ∈ gameCards d, (gameCards d).countP (fun y => y.symbol == x.symbol) = 2)
    (h4 : ((gameCards d).map Card.id).Nodup)
    (h5 : ∀ x ∈ gameCards d, x.matched = false ∧ x.flipped = false) :
    DeckOk d l := by
  refine ⟨h1, by rw [hperm.length_eq, h2], ?_, ?_, ?_, hperm⟩
  · intro c hc
    rw [hperm.countP_eq]
    exact h3 c (hperm.mem_iff.mp hc)
  · exact ((hperm.map Card.id).nodup_iff).mpr h4
  · intro c hc
    exact h5 c (hperm.mem_iff.mp hc)

/-- C2: for every difficulty tier, every deck `initializeGame` can
install (any permutation of the built pair list) has exactly
2 × totalPairs cards (totalPairs = 8 for easy and medium, 12 for hard),
is a permutation of two cards per each of the first totalPairs catalog
items, carries every symbol on exactly two cards, has pairwise distinct
ids, and every card starts with matched = false and flipped = false. -/
theorem c2_deck_properties (d : String)
    (hd : d = "easy" ∨ d = "medium" ∨ d = "hard")
    (l : List Card) (hp : (gameCards d).Perm l) : DeckOk d l := by
  rcases hd with h | h | h <;> subst h <;>
    exact deckOk_of_perm _ _ hp.symm (by decide) (by decide) (by decide)
      (by decide) (by decide)

/-- Witness for C2 at the hard tier with the unshuffled deck. -/
theorem c2_deck_properties_witness : DeckOk "hard" (gameCards "hard") :=
  c2_deck_properties "hard" (Or.inr (Or.inr rfl)) (gameCards "hard") (List.Perm.refl _)

/-- C3 counterexample: in a reachable state where a stale match
callback has matched cards 0 and 1 of a fresh (not yet started)
session, a `selectCard(0)` call violates the already-matched
precondition and is rejected (no timer scheduled), yet it still mutates
the state: it sets the started flag and latches the start timestamp. -/
theorem c3_noop_counterexample :
    c3State.gameStarted = false ∧
    matchedAt c3State.cards 0 = true ∧
    (handleCardClick c3State 0 9).2 = none ∧
    (handleCardClick c3State 0 9).1.gameStarted = true ∧
    (handleCardClick c3State 0 9).1 ≠ c3State := by decide

/-- C3 as amended: a `selectCard` call that violates a precondition
(full selection set, duplicate, or already-matched card) schedules
nothing and leaves cards, selection set, move count, matched-pair
count, won flag and elapsed time unchanged; if the game had already
started it changes nothing at all, but on a not-yet-started session it
still sets the started flag and records the start timestamp. -/
theorem c3_rejected_click_effects (s0 : GameState) (cid now : Nat)
    (h : s0.flippedCards.length = 2 ∨ cid ∈ s0.flippedCards ∨
      matchedAt s0.cards cid = true) :
    (handleCardClick s0 cid now).2 = none ∧
    (handleCardClick s0 cid now).1.cards = s0.cards ∧
    (handleCardClick s0 cid now).1.flippedCards = s0.flippedCards ∧
    (handleCardClick s0 cid now).1.moves = s0.moves ∧
    (handleCardClick s0 cid now).1.matchedPairs = s0.matchedPairs ∧
    (handleCardClick s0 cid now).1.gameWon = s0.gameWon ∧
    (handleCardClick s0 cid now).1.timeElapsed = s0.timeElapsed ∧
    (handleCardClick s0 cid now).1.gameStarted = true ∧
    (handleCardClick s0 cid now).1.startTime =
      (if s0.gameStarted then s0.startTime else now) ∧
    (s0.gameStarted = true → (handleCardClick s0 cid now).1 = s0) := by
  rw [click_rejected s0 cid now h]
  by_cases hg : s0.gameStarted = true <;> simp [hg]

/-- Witness for C3 at a full selection set. -/
theorem c3_rejected_click_effects_witness :
    (handleCardClick c3WitnessState 7 11).2 = none ∧
    (handleCardClick c3WitnessState 7 11).1.cards = c3WitnessState.cards ∧
    (handleCardClick c3WitnessState 7 11).1.flippedCards = c3WitnessState.flippedCards ∧
    (handleCardClick c3WitnessState 7 11).1.moves = c3WitnessState.moves ∧
    (handleCardClick c3WitnessState 7 11).1.matchedPairs = c3WitnessState.matchedPairs ∧
    (handleCardClick c3WitnessState 7 11).1.gameWon = c3WitnessState.gameWon ∧
    (handleCardClick c3WitnessState 7 11).1.timeElapsed = c3WitnessState.timeElapsed ∧
    (handleCardClick c3WitnessState 7 11).1.gameStarted = true ∧
    (handleCardClick c3WitnessState 7 11).1.startTime =
      (if c3WitnessState.gameStarted then c3WitnessState.startTime else 11) ∧
    (c3WitnessState.gameStarted = true →
      (handleCardClick c3WitnessState 7 11).1 = c3WitnessState) :=
  c3_rejected_click_effects c3WitnessState 7 11 (Or.inl (by decide))

/-- C4: the claim fails on the code.  A restart does not cancel the
pending match timer; when the stale callback fires it marks cards 0 and
1 of the brand-new deck as matched and raises the new session's
matched-pair count from 0 to 1, an observable effect on the new
session's state. -/
theorem c4_stale_callback_mutates_new_session :
    c4Pre.state.matchedPairs = 0 ∧
    (∀ c ∈ c4Pre.state.cards, c.matched = false ∧ c.flipped = false) ∧
    c4Pre.pending = [Pending.matchRes 0 1] ∧
    c4Post = gameStep "medium" c4Pre (Event.fire 0) ∧
    c4Post.state.matchedPairs = 1 ∧
    ((findCard c4Post.state.cards 0).map Card.matched) = some true ∧
    ((findCard c4Post.state.cards 1).map Card.matched) = some true := by decide

/-- C5 counterexample: after eight sessions each restarted with a
match timer pending, the ninth session emits a completion record whose
payload moves field is 0, refuting the claim that moves is always at
least 1. -/
theorem c5_moves_zero_emission :
    ((runGame "medium" c5Events (initConfig "medium" (gameCards "medium"))).emitted.map
      (fun r => r.dMoves)) = [0] := by decide

/-- C5 as amended: every emitted completion record has type
BLOCK_COMPLETION, blockId ww2-memory-game, completed = true,
maxScore = 1000, score = max(1000 − moves × 10, 100) — an integer in
[100, 1000], monotonically non-increasing in moves — and its payload
moves field is a non-negative integer (0 is reachable via stale
timers left pending across a restart). -/
theorem c5_emitted_record_fields (d : String) (deck : List Card) (evs : List Event)
    (r : Completion) (hr : r ∈ (runGame d evs (initConfig d deck)).emitted) :
    GoodRec d r ∧ Antitone score := by
  refine ⟨emitted_run_good d evs (initConfig d deck) ?_ r hr, score_antitone⟩
  intro r2 hr2
  simp [initConfig] at hr2

/-- Witness for C5 on a clean full game: moves = 8, score = 920. -/
theorem c5_emitted_record_fields_witness :
    GoodRec "medium"
      ⟨"BLOCK_COMPLETION", "ww2-memory-game", true, 920, 1000, 0, 8, 0, "medium"⟩ ∧
    Antitone score :=
  c5_emitted_record_fields "medium" (gameCards "medium") fullGameEvents
    ⟨"BLOCK_COMPLETION", "ww2-memory-game", true, 920, 1000, 0, 8, 0, "medium"⟩
    (by decide)

/-- C6: whenever a click completes a 2-card selection and schedules the
match resolution (which the code does exactly when both cards share a
symbol), the timer delay is 1000 ms, the selection is [f, sc], and
firing the callback on the then-current state marks every card with one
of the two ids matched = true and flipped = false, increments the
matched-pair count by exactly 1, and clears the selection set. -/
theorem c6_match_resolution (st : GameState) (cid now : Nat) (st1 : GameState)
    (f sc : Nat) (st2 : GameState)
    (h : handleCardClick st cid now = (st1, some (Pending.matchRes f sc))) :
    delayOf (Pending.matchRes f sc) = 1000 ∧
    st1.flippedCards = [f, sc] ∧
    st1.moves = st.moves + 1 ∧
    (∀ c ∈ (fireMatch f sc st2).cards, c.id = f ∨ c.id = sc →
      c.matched = true ∧ c.flipped = false) ∧
    (fireMatch f sc st2).matchedPairs = st2.matchedPairs + 1 ∧
    (fireMatch f sc st2).flippedCards = [] := by
  obtain ⟨hm, _, hids, _⟩ := click_scheduled st cid now st1 _ h
  exact ⟨rfl, by simpa [pendingIds] using hids, hm,
    (fireMatch_spec f sc st2).1, (fireMatch_spec f sc st2).2.1,
    (fireMatch_spec f sc st2).2.2⟩

/-- Witness for C6: the matching selection [0, 1] on the unshuffled
medium deck, resolved in the state right after the second click. -/
theorem c6_match_resolution_witness :
    delayOf (Pending.matchRes 0 1) = 1000 ∧
    c6StB.flippedCards = [0, 1] ∧
    c6StB.moves = c6StA.moves + 1 ∧
    (∀ c ∈ (fireMatch 0 1 c6StB).cards, c.id = 0 ∨ c.id = 1 →
      c.matched = true ∧ c.flipped = false) ∧
    (fireMatch 0 1 c6StB).matchedPairs = c6StB.matchedPairs + 1 ∧
    (fireMatch 0 1 c6StB).flippedCards = [] :=
  c6_match_resolution c6StA 1 6 c6StB 0 1 c6StB (by decide)

/-- C7 counterexample: a stale match callback from the previous session
fires between the scheduling and the firing of a mismatch resolution;
after the mismatch resolution of the completed different-symbol
selection [0, 2], the involved card 0 has flipped = false but
matched = true, refuting the claim that both cards end unmatched. -/
theorem c7_mismatch_leaves_matched_card :
    c7Mid.pending = [Pending.matchRes 0 1, Pending.mismatchRes 0 2] ∧
    c7Mid.state.flippedCards = [0, 2] ∧
    ((findCard c7Mid.state.cards 0).map Card.symbol ≠
      (findCard c7Mid.state.cards 2).map Card.symbol) ∧
    c7Cfg.state.flippedCards = [] ∧
    ((findCard c7Cfg.state.cards 0).map Card.matched) = some true ∧
    ((findCard c7Cfg.state.cards 0).map Card.flipped) = some false := by decide

/-- C7 as amended: whenever a click completes a 2-card selection and
schedules the mismatch resolution (which the code does exactly when the
two cards do not share a symbol), the timer delay is 1500 ms, the
selection is [f, sc], and firing the callback on the then-current state
sets flipped = false on every card with one of the two ids, leaves
every card's matched flag unchanged (hence false unless a stale
callback matched it during the pending window), clears the selection
set, and leaves the matched-pair count unchanged. -/
theorem c7_mismatch_resolution (st : GameState) (cid now : Nat) (st1 : GameState)
    (f sc : Nat) (st2 : GameState)
    (h : handleCardClick st cid now = (st1, some (Pending.mismatchRes f sc))) :
    delayOf (Pending.mismatchRes f sc) = 1500 ∧
    st1.flippedCards = [f, sc] ∧
    st1.moves = st.moves + 1 ∧
    (∀ c ∈ (fireMismatch f sc st2).cards, c.id = f ∨ c.id = sc → c.flipped = false) ∧
    (fireMismatch f sc st2).cards.map Card.matched = st2.cards.map Card.matched ∧
    (fireMismatch f sc st2).flippedCards = [] ∧
    (fireMismatch f sc st2).matchedPairs = st2.matchedPairs := by
  obtain ⟨hm, _, hids, _⟩ := click_scheduled st cid now st1 _ h
  exact ⟨rfl, by simpa [pendingIds] using hids, hm,
    (fireMismatch_spec f sc st2).1, (fireMismatch_spec f sc st2).2.1,
    (fireMismatch_spec f sc st2).2.2.1, (fireMismatch_spec f sc st2).2.2.2⟩

/-- Witness for C7: the mismatching selection [0, 2] on the unshuffled
medium deck, resolved in the state right after the second click. -/
theorem c7_mismatch_resolution_witness :
    delayOf (Pending.mismatchRes 0 2) = 1500 ∧
    c7StB.flippedCards = [0, 2] ∧
    c7StB.moves = c7StA.moves + 1 ∧
    (∀ c ∈ (fireMismatch 0 2 c7StB).cards, c.id = 0 ∨ c.id = 2 → c.flipped = false) ∧
    (fireMismatch 0 2 c7StB).cards.map Card.matched = c7StB.cards.map Card.matched ∧
    (fireMismatch 0 2 c7StB).flippedCards = [] ∧
    (fireMismatch 0 2 c7StB).matchedPairs = c7StB.matchedPairs :=
  c7_mismatch_resolution c7StA 2 6 c7StB 0 2 c7StB (by decide)

/-- C8: for every accepted `selectCard` call, the move count increases
by exactly 1 if and only if the call brings the selection set to
exactly 2 members, and a call that leaves it with 1 member never
changes the move count. -/
theorem c8_move_increment_iff_pair_completed (s0 : GameState) (cid now : Nat)
    (h1 : s0.flippedCards.length ≠ 2) (h2 : cid ∉ s0.flippedCards)
    (h3 : matchedAt s0.cards cid = false) :
    ((handleCardClick s0 cid now).1.moves = s0.moves + 1 ↔
      (handleCardClick s0 cid now).1.flippedCards.length = 2) ∧
    ((handleCardClick s0 cid now).1.flippedCards.length = 1 →
      (handleCardClick s0 cid now).1.moves = s0.moves) := by
  obtain ⟨hf, _, _, _, hm, _⟩ := click_accepted s0 cid now h1 h2 h3
  rw [hf, hm]
  simp only [List.length_append, List.length_singleton]
  by_cases hl : s0.flippedCards.length + 1 = 2 <;> simp [hl]

/-- Witness for C8: the first click of a session completes no pair. -/
theorem c8_move_increment_iff_pair_completed_witness :
    ((handleCardClick (initState (gameCards "medium")) 3 1).1.moves =
        (initState (gameCards "medium")).moves + 1 ↔
      (handleCardClick (initState (gameCards "medium")) 3 1).1.flippedCards.length = 2) ∧
    ((handleCardClick (initState (gameCards "medium")) 3 1).1.flippedCards.length = 1 →
      (handleCardClick (initState (gameCards "medium")) 3 1).1.moves =
        (initState (gameCards "medium")).moves) :=
  c8_move_increment_iff_pair_completed (initState (gameCards "medium")) 3 1
    (by decide) (by decide) (by decide)

/-- C9: in every reachable configuration of the component, the
selection set has length at most 2, contains no duplicate ids, and
contains no id of a matched card; reachability closes the invariant
under every operation (clicks, both resolution callbacks, sampler
ticks, restarts, and the win effect). -/
theorem c9_selection_invariant (d : String) (c : Config) (h : Reachable d c) :
    SelInv c.state := by
  obtain ⟨deck, evs, hperm, hvalid, rfl⟩ := h
  have base : Inv (initConfig d deck) := by
    constructor
    · exact ((hperm.map Card.id).nodup_iff).mp (gameCards_ids_nodup d)
    · refine ⟨by simp [initConfig, initState], by simp [initConfig, initState], ?_⟩
      intro x hx
      simp [initConfig, initState] at hx
  exact (runGame_inv d evs (initConfig d deck) hvalid base).2

/-- Witness for C9: the freshly mounted medium configuration. -/
theorem c9_selection_invariant_witness :
    SelInv (initConfig "medium" (gameCards "medium")).state :=
  c9_selection_invariant "medium" (initConfig "medium" (gameCards "medium"))
    ⟨gameCards "medium", [], List.Perm.refl _,
      fun e he => absurd he (List.not_mem_nil e), rfl⟩

/-- C1: the claim fails on the code.  On a run in which eight stale
match callbacks fire into the ninth session, the completion record is
emitted once with moves = 0, and after two further clicks on unmatched
cards the win effect re-runs (its moves dependency changed while its
condition still holds) and emits a second completion record in the
same game, refuting emission being exactly once per game. -/
theorem c1_completion_emitted_twice :
    ((runGame "medium" c1Events (initConfig "medium" (gameCards "medium"))).emitted.map
        (fun r => r.dMoves)) = [0, 1] ∧
    (runGame "medium" c1Events (initConfig "medium" (gameCards "medium"))).emitted.length
      = 2 := by decide

theorem ghost_map_fix (st : GameState) (f g : Nat)
    (hgnone : ∀ x ∈ st.cards, x.id ≠ g)
    (hf2 : ∀ c ∈ st.cards, c.id = f → c.flipped = false) :
    (st.cards.map (flipCard f)).map (unflip f g) = st.cards := by
  rw [List.map_map]
  have hpt : ∀ c ∈ st.cards, (unflip f g ∘ flipCard f) c = id c := by
    intro c hc
    show unflip f g (flipCard f c) = c
    by_cases hcf : c.id = f
    · have hcfl : c.flipped = false := hf2 c hc hcf
      unfold flipCard unflip
      rw [if_pos hcf, if_pos (Or.inl hcf)]
      cases c
      simp_all
    · unfold flipCard unflip
      rw [if_neg hcf, if_neg (by push_neg; exact ⟨hcf, hgnone c hc⟩)]
  rw [List.map_congr_left hpt, List.map_id]

/-- C10: a `selectCard(g)` call whose id matches no card is not
rejected when the selection set has room and does not contain it: the
id is appended while every card is untouched, and when it completes a
2-card selection the move count increments by 1 and the pair resolves
as a mismatch after the 1500 ms delay, clearing the selection and
returning every card to its pre-selection flags. -/
theorem c10_ghost_card_selection (st stA stB : GameState) (pA pB : Option Pending)
    (f g now1 now2 : Nat)
    (hg : findCard st.cards g = none)
    (hsel : st.flippedCards = [])
    (hf1 : matchedAt st.cards f = false)
    (hf2 : ∀ c ∈ st.cards, c.id = f → c.flipped = false)
    (hfg : f ≠ g)
    (hA : handleCardClick st f now1 = (stA, pA))
    (hB : handleCardClick stA g now2 = (stB, pB)) :
    pA = none ∧ stA.flippedCards = [f] ∧
    stB.flippedCards = [f, g] ∧ stB.cards = stA.cards ∧
    stB.moves = st.moves + 1 ∧
    pB = some (Pending.mismatchRes f g) ∧
    delayOf (Pending.mismatchRes f g) = 1500 ∧
    (fireMismatch f g stB).flippedCards = [] ∧
    (fireMismatch f g stB).cards = st.cards ∧
    (fireMismatch f g stB).matchedPairs = st.matchedPairs := by
  have hgnone : ∀ x ∈ st.cards, x.id ≠ g := by
    intro x hx
    unfold findCard at hg
    have := List.find?_eq_none.mp hg x hx
    simpa using this
  have e1 := click_accepted st f now1 (by rw [hsel]; simp) (by rw [hsel]; simp) hf1
  rw [hA] at e1
  obtain ⟨eAf, eAc, eAmp, eAw, eAm, eAp⟩ := e1
  rw [hsel] at eAf eAm eAp
  simp only [List.nil_append, List.length_nil] at eAf eAm eAp
  norm_num at eAm eAp
  have hGA : ∀ x ∈ stA.cards, x.id ≠ g := by
    intro x hx
    rw [eAc] at hx
    rcases List.mem_map.mp hx with ⟨c0, hc0, rfl⟩
    rw [flipCard_id]
    exact hgnone c0 hc0
  have hfga : findCard stA.cards g = none := by
    unfold findCard
    rw [List.find?_eq_none]
    intro x hx
    simp [hGA x hx]
  have hmA : matchedAt stA.cards g = false := by
    unfold matchedAt
    rw [hfga]
    rfl
  have e2 := click_accepted stA g now2 (by rw [eAf]; simp) (by rw [eAf]; simpa using Ne.symm hfg) hmA
  rw [hB] at e2
  obtain ⟨eBf, eBc, eBmp, eBw, eBm, eBp⟩ := e2
  rw [eAf] at eBf eBm eBp
  simp only [List.length_singleton, List.singleton_append] at eBf eBm eBp
  norm_num at eBm eBp
  have hBc : stB.cards = stA.cards := by
    rw [eBc]
    have hpt : ∀ c ∈ stA.cards, flipCard g c = id c := by
      intro c hc
      unfold flipCard
      rw [if_neg (hGA c hc)]
      rfl
    rw [List.map_congr_left hpt, List.map_id]
  have hsched : scheduleRes stA.cards [f, g] = some (Pending.mismatchRes f g) := by
    simp only [scheduleRes]
    rw [hfga]
    rcases hfa : findCard stA.cards f with _ | c1 <;> rfl
  have hcards : (fireMismatch f g stB).cards = st.cards := by
    show stB.cards.map (unflip f g) = st.cards
    rw [hBc, eAc]
    exact ghost_map_fix st f g hgnone hf2
  refine ⟨eAp, eAf, eBf, hBc, ?_, ?_, rfl, rfl, hcards, ?_⟩
  · rw [eBm, eAm]
  · rw [eBp, hsched]
  · show stB.matchedPairs = st.matchedPairs
    rw [eBmp, eAmp]

/-- Witness for C10: card 0 of the unshuffled medium deck followed by
the ghost id 99. -/
theorem c10_ghost_card_selection_witness :
    (handleCardClick (initState (gameCards "medium")) 0 3).2 = none ∧
    (handleCardClick (initState (gameCards "medium")) 0 3).1.flippedCards = [0] ∧
    (handleCardClick (handleCardClick (initState (gameCards "medium")) 0 3).1 99 4).1.flippedCards = [0, 99] ∧
    (handleCardClick (handleCardClick (initState (gameCards "medium")) 0 3).1 99 4).1.cards =
      (handleCardClick (initState (gameCards "medium")) 0 3).1.cards ∧
    (handleCardClick (handleCardClick (initState (gameCards "medium")) 0 3).1 99 4).1.moves =
      (initState (gameCards "medium")).moves + 1 ∧
    (handleCardClick (handleCardClick (initState (gameCards "medium")) 0 3).1 99 4).2 =
      some (Pending.mismatchRes 0 99) ∧
    delayOf (Pending.mismatchRes 0 99) = 1500 ∧
    (fireMismatch 0 99 (handleCardClick (handleCardClick (initState (gameCards "medium")) 0 3).1 99 4).1).flippedCards = [] ∧
    (fireMismatch 0 99 (handleCardClick (handleCardClick (initState (gameCards "medium")) 0 3).1 99 4).1).cards =
      (initState (gameCards "medium")).cards ∧
    (fireMismatch 0 99 (handleCardClick (handleCardClick (initState (gameCards "medium")) 0 3).1 99 4).1).matchedPairs =
      (initState (gameCards "medium")).matchedPairs :=
  c10_ghost_card_selection (initState (gameCards "medium"))
    (handleCardClick (initState (gameCards "medium")) 0 3).1
    (handleCardClick (handleCardClick (initState (gameCards "medium")) 0 3).1 99 4).1
    (handleCardClick (initState (gameCards "medium")) 0 3).2
    (handleCardClick (handleCardClick (initState (gameCards "medium")) 0 3).1 99 4).2
    0 99 3 4 (by decide) (by decide) (by decide) (by decide) (by decide) rfl rfl

end MemGame
